import Mathlib

/-!
Shallow embedding of the liveness-check core of `src/App.tsx`
(ezrogha/live-face-auth): the detection-state reducer, the per-frame face
qualification pipeline `handleFaceDetection`, and the five challenge
evaluators, including the stateful NOD rolling-window detector.

Numbers (probabilities, angles, progress percentages, rectangle
coordinates) are modelled as exact rationals; the TS `"yes" | "no"`
string enums are modelled as `Bool` with `true = "yes"`.
-/

namespace LiveFaceAuth

/-- The five challenge kinds, `type DetectionActions` in `App.tsx`. -/
inductive DetectionAction where
  | BLINK
  | TURN_HEAD_LEFT
  | TURN_HEAD_RIGHT
  | NOD
  | SMILE
deriving DecidableEq, Repr

/-- The fixed ordered challenge list `detectionsList` in `App.tsx`. -/
def detectionsList : List DetectionAction :=
  [.BLINK, .TURN_HEAD_LEFT, .TURN_HEAD_RIGHT, .NOD, .SMILE]

/-- Threshold `detections.BLINK.minProbability` (0.3). -/
def BLINK_minProbability : ℚ := 3 / 10

/-- Threshold `detections.TURN_HEAD_LEFT.maxAngle` (−15). -/
def TURN_HEAD_LEFT_maxAngle : ℚ := -15

/-- Threshold `detections.TURN_HEAD_RIGHT.minAngle` (15). -/
def TURN_HEAD_RIGHT_minAngle : ℚ := 15

/-- Threshold `detections.NOD.minDiff` (1.5). -/
def NOD_minDiff : ℚ := 3 / 2

/-- Threshold `detections.SMILE.minProbability` (0.7). -/
def SMILE_minProbability : ℚ := 7 / 10

/-- Axis-aligned rectangle, the `Rect` interface of `src/utils/contains`. -/
structure Rect where
  minX : ℚ
  minY : ℚ
  width : ℚ
  height : ℚ
deriving DecidableEq, Repr

/-- Modelled from the spec: the function `contains` of `src/utils/contains`
(imported by `App.tsx` but whose source file is not in the repository
snapshot). Spec §4.1: returns true iff `inside` is fully enclosed by
`outside`: `inside.minX ≥ outside.minX`, `inside.minY ≥ outside.minY`,
`inside.minX + inside.width ≤ outside.minX + outside.width`,
`inside.minY + inside.height ≤ outside.minY + outside.height`. -/
def contains (outside inside : Rect) : Bool :=
  decide (outside.minX ≤ inside.minX) &&
  decide (outside.minY ≤ inside.minY) &&
  decide (inside.minX + inside.width ≤ outside.minX + outside.width) &&
  decide (inside.minY + inside.height ≤ outside.minY + outside.height)

/-- `PREVIEW_SIZE` in `App.tsx`. -/
def PREVIEW_SIZE : ℚ := 325

/-- `PREVIEW_RECT` in `App.tsx`, parameterised by the device window width
(`Dimensions.get("window").width`). -/
def PREVIEW_RECT (windowWidth : ℚ) : Rect :=
  { minX := (windowWidth - PREVIEW_SIZE) / 2
    minY := 50
    width := PREVIEW_SIZE
    height := PREVIEW_SIZE }

/-- The session state owned by the reducer, `typeof initialState` in
`App.tsx`. `true` models the string `"yes"`, `false` models `"no"`. -/
structure SessionState where
  faceDetected : Bool
  faceTooBig : Bool
  detectionsList : List DetectionAction
  currentDetectionIndex : Nat
  progressFill : ℚ
  processComplete : Bool
deriving DecidableEq, Repr

/-- `initialState` in `App.tsx`. -/
def initialState : SessionState :=
  { faceDetected := false
    faceTooBig := false
    detectionsList := detectionsList
    currentDetectionIndex := 0
    progressFill := 0
    processComplete := false }

/-- The reducer's event type (`PossibleActions` in `App.tsx`): a closed sum,
so the reducer's `default: throw` branch is unreachable by construction. -/
inductive Event where
  | FACE_DETECTED (payload : Bool)
  | FACE_TOO_BIG (payload : Bool)
  | NEXT_DETECTION
deriving DecidableEq, Repr

/-- `detectionReducer` in `App.tsx`, lines 68–114. -/
def detectionReducer (state : SessionState) (action : Event) : SessionState :=
  match action with
  | .FACE_DETECTED payload =>
    if payload then
      { state with
        faceDetected := payload
        progressFill := 100 / ((state.detectionsList.length : ℚ) + 1) }
    else
      -- Reset
      initialState
  | .FACE_TOO_BIG payload => { state with faceTooBig := payload }
  | .NEXT_DETECTION =>
    -- Next detection index
    let nextDetectionIndex := state.currentDetectionIndex + 1
    -- Skip 0 index
    let progressMultiplier := nextDetectionIndex + 1
    let newProgressFill :=
      (100 / ((state.detectionsList.length : ℚ) + 1)) * (progressMultiplier : ℚ)
    if nextDetectionIndex = state.detectionsList.length then
      -- Passed
      { state with processComplete := true, progressFill := newProgressFill }
    else
      -- Next detection
      { state with
        currentDetectionIndex := nextDetectionIndex
        progressFill := newProgressFill }

/-- States reachable from `initialState` by reducer events. -/
inductive Reachable : SessionState → Prop where
  | init : Reachable initialState
  | step {s : SessionState} (a : Event) : Reachable s → Reachable (detectionReducer s a)

/-- One face-measurement record per frame, the fields of
`result.faces[0]` that `handleFaceDetection` reads. -/
structure FaceMeasurement where
  bounds : Rect
  leftEyeOpenProbability : ℚ
  rightEyeOpenProbability : ℚ
  smilingProbability : ℚ
  yawAngle : ℚ
  rollAngle : ℚ
deriving DecidableEq, Repr

/-- The `NOD` branch of `handleFaceDetection` (lines 206–238): push the
current roll angle, `shift` when the buffer holds more than 10 entries,
report unsatisfied while fewer than 10 entries, otherwise compare the
current |angle| with the mean of the absolute values of all entries except
the newest (`splice(0, length - 1)`). Returns the updated buffer and the
satisfied verdict. -/
def nodUpdate (rollAngles : List ℚ) (rollAngle : ℚ) : List ℚ × Bool :=
  let pushed := rollAngles ++ [rollAngle]
  let kept := if 10 < pushed.length then pushed.tail else pushed
  if kept.length < 10 then (kept, false)
  else
    let rollAnglesExceptCurrent := kept.take (kept.length - 1)
    let rollAnglesSum := rollAnglesExceptCurrent.foldl (fun prev curr => prev + |curr|) 0
    let avgAngle := rollAnglesSum / (rollAnglesExceptCurrent.length : ℚ)
    let diff := abs (avgAngle - abs rollAngle)
    (kept, decide (NOD_minDiff ≤ diff))

/-- The NOD algorithm as the spec states it (§4.3): append the current
roll angle; if the buffer length exceeds 10 drop the oldest entry (FIFO,
capacity 10); with fewer than 10 entries report not satisfied; otherwise
the arithmetic mean of the absolute values of all entries except the most
recently appended one is compared with |current|, satisfied iff the
absolute difference is ≥ 1.5. Reference definition for the refinement
claim about `nodUpdate`. -/
def nodSpecModel (buffer : List ℚ) (current : ℚ) : List ℚ × Bool :=
  let appended := buffer ++ [current]
  let bounded := if 10 < appended.length then appended.drop 1 else appended
  if bounded.length < 10 then (bounded, false)
  else
    let previous := bounded.dropLast
    let mean := (previous.map (fun x => |x|)).sum / (previous.length : ℚ)
    (bounded, decide (3 / 2 ≤ abs (mean - abs current)))

/-- Feed a sequence of roll angles through `nodUpdate`, starting from a
given buffer; returns the final buffer and whether any frame reported the
NOD challenge satisfied. -/
def nodFeed (rollAngles : List ℚ) (rolls : List ℚ) : List ℚ × Bool :=
  rolls.foldl
    (fun acc r =>
      let s := nodUpdate acc.1 r
      (s.1, acc.2 || s.2))
    (rollAngles, false)

/-- The tolerance-adjusted face rectangle `faceRectSmaller` of
`handleFaceDetection` (lines 155–164): the full 50-unit `edgeOffset` is
subtracted from width and height, `minX`/`minY` are left unchanged. -/
def faceRectSmaller (faceRect : Rect) : Rect :=
  { faceRect with width := faceRect.width - 50, height := faceRect.height - 50 }

/-- `handleFaceDetection` in `App.tsx` (lines 138–258) as a pure function:
given the device window width, the current session-state snapshot, the
`rollAngles` ref contents and the detected faces of the frame, it returns
the list of events dispatched (in dispatch order) and the new `rollAngles`
contents. All dispatches within one frame read the same state snapshot,
as the React closure does. -/
def handleFaceDetection (windowWidth : ℚ) (state : SessionState)
    (rollAngles : List ℚ) (faces : List FaceMeasurement) :
    List Event × List ℚ :=
  match faces with
  | [face] =>
    let faceRect : Rect := face.bounds
    if !(contains (PREVIEW_RECT windowWidth) (faceRectSmaller faceRect)) then
      ([.FACE_DETECTED false], rollAngles)
    else
      let faceMaxSize : ℚ := PREVIEW_SIZE - 90
      if state.faceDetected = false ∧ faceMaxSize ≤ faceRect.width ∧ faceMaxSize ≤ faceRect.height then
        ([.FACE_TOO_BIG true], rollAngles)
      else
        let sizeEvents : List Event :=
          if state.faceDetected = false ∧ state.faceTooBig = true then
            [.FACE_TOO_BIG false]
          else []
        let detectEvents : List Event :=
          if state.faceDetected = false then [.FACE_DETECTED true] else []
        match state.detectionsList.get? state.currentDetectionIndex with
        | some .BLINK =>
          let leftEyeClosed := face.leftEyeOpenProbability ≤ BLINK_minProbability
          let rightEyeClosed := face.rightEyeOpenProbability ≤ BLINK_minProbability
          if leftEyeClosed ∧ rightEyeClosed then
            (sizeEvents ++ detectEvents ++ [.NEXT_DETECTION], rollAngles)
          else
            (sizeEvents ++ detectEvents, rollAngles)
        | some .NOD =>
          let nod := nodUpdate rollAngles face.rollAngle
          if nod.2 then
            (sizeEvents ++ detectEvents ++ [.NEXT_DETECTION], nod.1)
          else
            (sizeEvents ++ detectEvents, nod.1)
        | some .TURN_HEAD_LEFT =>
          if face.yawAngle ≤ TURN_HEAD_LEFT_maxAngle then
            (sizeEvents ++ detectEvents ++ [.NEXT_DETECTION], rollAngles)
          else
            (sizeEvents ++ detectEvents, rollAngles)
        | some .TURN_HEAD_RIGHT =>
          if TURN_HEAD_RIGHT_minAngle ≤ face.yawAngle then
            (sizeEvents ++ detectEvents ++ [.NEXT_DETECTION], rollAngles)
          else
            (sizeEvents ++ detectEvents, rollAngles)
        | some .SMILE =>
          if SMILE_minProbability ≤ face.smilingProbability then
            (sizeEvents ++ detectEvents ++ [.NEXT_DETECTION], rollAngles)
          else
            (sizeEvents ++ detectEvents, rollAngles)
        | none => (sizeEvents ++ detectEvents, rollAngles)
  | _ => ([.FACE_DETECTED false], rollAngles)

/-- The state right after the initial state sees `FACE_DETECTED(yes)`. -/
def afterDetect : SessionState := detectionReducer initialState (.FACE_DETECTED true)

/-- The state after `afterDetect` sees `k` successive `NEXT_DETECTION` events. -/
def afterNexts : Nat → SessionState
  | 0 => afterDetect
  | k + 1 => detectionReducer (afterNexts k) .NEXT_DETECTION

lemma afterDetect_eq :
    afterDetect =
      { faceDetected := true, faceTooBig := false, detectionsList := detectionsList,
        currentDetectionIndex := 0, progressFill := 50 / 3, processComplete := false } := by
  simp [afterDetect, detectionReducer, initialState, detectionsList]
  norm_num

lemma afterNexts_one :
    afterNexts 1 =
      { faceDetected := true, faceTooBig := false, detectionsList := detectionsList,
        currentDetectionIndex := 1, progressFill := 100 / 3, processComplete := false } := by
  simp [afterNexts, afterDetect_eq, detectionReducer, detectionsList]
  norm_num

lemma afterNexts_two :
    afterNexts 2 =
      { faceDetected := true, faceTooBig := false, detectionsList := detectionsList,
        currentDetectionIndex := 2, progressFill := 50, processComplete := false } := by
  have h : afterNexts 2 = detectionReducer (afterNexts 1) .NEXT_DETECTION := rfl
  rw [h, afterNexts_one]
  simp [detectionReducer, detectionsList]
  norm_num

lemma afterNexts_three :
    afterNexts 3 =
      { faceDetected := true, faceTooBig := false, detectionsList := detectionsList,
        currentDetectionIndex := 3, progressFill := 200 / 3, processComplete := false } := by
  have h : afterNexts 3 = detectionReducer (afterNexts 2) .NEXT_DETECTION := rfl
  rw [h, afterNexts_two]
  simp [detectionReducer, detectionsList]
  norm_num

lemma afterNexts_four :
    afterNexts 4 =
      { faceDetected := true, faceTooBig := false, detectionsList := detectionsList,
        currentDetectionIndex := 4, progressFill := 250 / 3, processComplete := false } := by
  have h : afterNexts 4 = detectionReducer (afterNexts 3) .NEXT_DETECTION := rfl
  rw [h, afterNexts_three]
  simp [detectionReducer, detectionsList]
  norm_num

lemma afterNexts_five :
    afterNexts 5 =
      { faceDetected := true, faceTooBig := false, detectionsList := detectionsList,
        currentDetectionIndex := 4, progressFill := 100, processComplete := true } := by
  have h : afterNexts 5 = detectionReducer (afterNexts 4) .NEXT_DETECTION := rfl
  rw [h, afterNexts_four]
  simp [detectionReducer, detectionsList]
  norm_num

lemma reachable_afterNexts (k : Nat) : Reachable (afterNexts k) := by
  induction k with
  | zero => exact Reachable.step (.FACE_DETECTED true) Reachable.init
  | succ n ih => exact Reachable.step .NEXT_DETECTION ih

/-- The invariant the reducer maintains on reachable states: the challenge
list is the fixed configuration, the index stays strictly below its
length, and a completed state sits at the last index. -/
def GoodState (s : SessionState) : Prop :=
  s.detectionsList = detectionsList ∧
  s.currentDetectionIndex < 5 ∧
  (s.processComplete = true → s.currentDetectionIndex = 4)

lemma goodState_init : GoodState initialState := by
  refine ⟨rfl, ?_, ?_⟩ <;> simp [initialState]

lemma goodState_step (s : SessionState) (a : Event) (h : GoodState s) :
    GoodState (detectionReducer s a) := by
  obtain ⟨fd, ftb, dl, idx, fill, pc⟩ := s
  obtain ⟨hl', hi', hc'⟩ := h
  have hl : dl = detectionsList := hl'
  have hi : idx < 5 := hi'
  have hc : pc = true → idx = 4 := hc'
  have hlen : dl.length = 5 := by rw [hl]; rfl
  cases a with
  | FACE_DETECTED payload =>
    cases payload with
    | false => exact goodState_init
    | true => exact ⟨hl, hi, hc⟩
  | FACE_TOO_BIG payload => exact ⟨hl, hi, hc⟩
  | NEXT_DETECTION =>
    simp only [detectionReducer]
    by_cases hEq : idx + 1 = dl.length
    · simp only [if_pos hEq]
      exact ⟨hl, by simpa using hi, by intro _; simp; omega⟩
    · simp only [if_neg hEq]
      refine ⟨hl, by simp; omega, ?_⟩
      intro hpc
      simp at hpc ⊢
      have := hc hpc
      omega

lemma reachable_goodState {s : SessionState} (h : Reachable s) : GoodState s := by
  induction h with
  | init => exact goodState_init
  | step a _ ih => exact goodState_step _ a ih

/-- Claim C5: applying `FACE_DETECTED(no)` to any state (in particular any
reachable state) yields exactly `initialState`, whose fields are
`faceDetected = no`, `faceTooBig = no`, `currentDetectionIndex = 0`,
`progressFill = 0`, `processComplete = false`. -/
theorem reset_on_face_lost (s : SessionState) :
    detectionReducer s (.FACE_DETECTED false) = initialState ∧
    initialState.faceDetected = false ∧
    initialState.faceTooBig = false ∧
    initialState.currentDetectionIndex = 0 ∧
    initialState.progressFill = 0 ∧
    initialState.processComplete = false :=
  ⟨rfl, rfl, rfl, rfl, rfl, rfl⟩

/-- Claim C4: from the initial-plus-detected state (`progressFill =
100/6 = 50/3` with 5 challenges), the five `NEXT_DETECTION` events produce
the strictly increasing `progressFill` sequence `100/3, 50, 200/3, 250/3,
100` — whose two-decimal roundings are `33.33, 50, 66.67, 83.33, 100`,
each exact value within 1/200 of the rounded one — with `processComplete`
becoming true exactly on the fifth event, where `progressFill` is exactly
100, and `progressFill` never exceeding 100 along the way. -/
theorem progress_monotone_sequence :
    afterDetect.progressFill = 100 / 6 ∧
    (afterNexts 1).progressFill = 100 / 3 ∧
    (afterNexts 2).progressFill = 50 ∧
    (afterNexts 3).progressFill = 200 / 3 ∧
    (afterNexts 4).progressFill = 250 / 3 ∧
    (afterNexts 5).progressFill = 100 ∧
    abs ((afterNexts 1).progressFill - 3333 / 100) ≤ 1 / 200 ∧
    abs ((afterNexts 3).progressFill - 6667 / 100) ≤ 1 / 200 ∧
    abs ((afterNexts 4).progressFill - 8333 / 100) ≤ 1 / 200 ∧
    (afterNexts 0).progressFill < (afterNexts 1).progressFill ∧
    (afterNexts 1).progressFill < (afterNexts 2).progressFill ∧
    (afterNexts 2).progressFill < (afterNexts 3).progressFill ∧
    (afterNexts 3).progressFill < (afterNexts 4).progressFill ∧
    (afterNexts 4).progressFill < (afterNexts 5).progressFill ∧
    (afterNexts 1).processComplete = false ∧
    (afterNexts 2).processComplete = false ∧
    (afterNexts 3).processComplete = false ∧
    (afterNexts 4).processComplete = false ∧
    (afterNexts 5).processComplete = true ∧
    (afterNexts 1).progressFill ≤ 100 ∧
    (afterNexts 2).progressFill ≤ 100 ∧
    (afterNexts 3).progressFill ≤ 100 ∧
    (afterNexts 4).progressFill ≤ 100 ∧
    (afterNexts 5).progressFill ≤ 100 := by
  have h0 : afterNexts 0 = afterDetect := rfl
  refine ⟨?_, ?_, ?_, ?_, ?_, ?_, ?_, ?_, ?_, ?_, ?_, ?_, ?_, ?_, ?_, ?_, ?_, ?_, ?_,
    ?_, ?_, ?_, ?_, ?_⟩ <;>
    simp [h0, afterDetect_eq, afterNexts_one, afterNexts_two, afterNexts_three,
      afterNexts_four, afterNexts_five] <;>
    norm_num [abs_le]

/-- Claim C1 counterexample: the state reached from `initialState` by
`FACE_DETECTED(yes)` followed by five `NEXT_DETECTION` events has
`processComplete = true` but `currentDetectionIndex = 4 ≠ 5 =
detectionsList.length`, refuting the claimed invariant `processComplete ↔
currentDetectionIndex = N`. -/
theorem complete_iff_index_N_counterexample :
    Reachable (afterNexts 5) ∧
    (afterNexts 5).processComplete = true ∧
    (afterNexts 5).detectionsList.length = 5 ∧
    (afterNexts 5).currentDetectionIndex = 4 ∧
    ¬ ((afterNexts 5).processComplete = true ↔
        (afterNexts 5).currentDetectionIndex = (afterNexts 5).detectionsList.length) := by
  refine ⟨reachable_afterNexts 5, ?_, ?_, ?_, ?_⟩ <;>
    simp [afterNexts_five, detectionsList]

/-- Claim C1 amended: in every reachable state, `currentDetectionIndex`
never equals `detectionsList.length` (= 5); a state with `processComplete =
true` instead has `currentDetectionIndex = detectionsList.length − 1` (= 4),
because the completing `NEXT_DETECTION` leaves the index unchanged. -/
theorem complete_implies_last_index (s : SessionState) (h : Reachable s) :
    (s.processComplete = true → s.currentDetectionIndex = s.detectionsList.length - 1) ∧
    s.currentDetectionIndex ≠ s.detectionsList.length := by
  obtain ⟨hl, hi, hc⟩ := reachable_goodState h
  rw [hl]
  have hlen : detectionsList.length = 5 := rfl
  rw [hlen]
  exact ⟨fun hp => hc hp, by omega⟩

/-- Claim C1 amended, witness: the theorem applied to the completed state
`afterNexts 5`. -/
theorem complete_implies_last_index_witness :
    ((afterNexts 5).processComplete = true →
      (afterNexts 5).currentDetectionIndex = (afterNexts 5).detectionsList.length - 1) ∧
    (afterNexts 5).currentDetectionIndex ≠ (afterNexts 5).detectionsList.length :=
  complete_implies_last_index (afterNexts 5) (reachable_afterNexts 5)

/-- Claim C2 counterexample: the reachable state `afterNexts 1` has
`faceDetected = "yes"` and `progressFill = 100/3`, yet applying
`FACE_DETECTED(yes)` to it resets `progressFill` to `100/6 = 50/3`, so the
event is not a field-for-field no-op on such states. -/
theorem faceDetectedYes_noop_counterexample :
    Reachable (afterNexts 1) ∧
    (afterNexts 1).faceDetected = true ∧
    detectionReducer (afterNexts 1) (.FACE_DETECTED true) ≠ afterNexts 1 ∧
    (detectionReducer (afterNexts 1) (.FACE_DETECTED true)).progressFill = 50 / 3 ∧
    (afterNexts 1).progressFill = 100 / 3 := by
  refine ⟨reachable_afterNexts 1, ?_, ?_, ?_, ?_⟩ <;>
    simp [afterNexts_one, detectionReducer, detectionsList, SessionState.mk.injEq] <;>
    norm_num

/-- Claim C2 amended: applying `FACE_DETECTED(yes)` to a state whose
`faceDetected` field is already `"yes"` leaves every field unchanged
EXCEPT `progressFill`, which is (re)set to `100 / (N + 1)`; consequently
the event is idempotent — applying it twice equals applying it once — but
it is not a no-op on states whose `progressFill` differs from `100/(N+1)`. -/
theorem faceDetectedYes_sets_fill :
    (∀ s : SessionState, s.faceDetected = true →
      detectionReducer s (.FACE_DETECTED true) =
        { s with progressFill := 100 / ((s.detectionsList.length : ℚ) + 1) }) ∧
    (∀ s : SessionState,
      detectionReducer (detectionReducer s (.FACE_DETECTED true)) (.FACE_DETECTED true) =
        detectionReducer s (.FACE_DETECTED true)) := by
  constructor
  · intro s hs
    obtain ⟨fd, ftb, dl, idx, fill, pc⟩ := s
    have hfd : fd = true := hs
    simp [detectionReducer, hfd]
  · intro s
    obtain ⟨fd, ftb, dl, idx, fill, pc⟩ := s
    simp [detectionReducer]

/-- Claim C2 amended, witness: the theorem's first part applied to the
concrete already-detected state `afterDetect`. -/
theorem faceDetectedYes_sets_fill_witness :
    detectionReducer afterDetect (.FACE_DETECTED true) =
      { afterDetect with progressFill := 100 / ((afterDetect.detectionsList.length : ℚ) + 1) } :=
  faceDetectedYes_sets_fill.1 afterDetect (by rw [afterDetect_eq])

/-- Claim C10: every reachable state has `currentDetectionIndex` strictly
below `detectionsList.length`, so the challenge lookup
`detectionsList[currentDetectionIndex]` is always defined; and on any
state sitting at the last index, `NEXT_DETECTION` sets `processComplete`
without changing the index. -/
theorem index_always_in_bounds :
    (∀ s : SessionState, Reachable s →
      s.currentDetectionIndex < s.detectionsList.length ∧
      (s.detectionsList.get? s.currentDetectionIndex).isSome = true) ∧
    (∀ s : SessionState, s.currentDetectionIndex + 1 = s.detectionsList.length →
      (detectionReducer s .NEXT_DETECTION).currentDetectionIndex = s.currentDetectionIndex ∧
      (detectionReducer s .NEXT_DETECTION).processComplete = true) := by
  constructor
  · intro s h
    obtain ⟨hl, hi, _⟩ := reachable_goodState h
    have hlt : s.currentDetectionIndex < s.detectionsList.length := by
      rw [hl]; exact hi
    exact ⟨hlt, by rw [List.get?_eq_get hlt]; rfl⟩
  · intro s hEq
    obtain ⟨fd, ftb, dl, idx, fill, pc⟩ := s
    have hEq' : idx + 1 = dl.length := hEq
    simp [detectionReducer, hEq']

lemma foldl_add_abs (l : List ℚ) (a : ℚ) :
    l.foldl (fun prev curr => prev + |curr|) a = a + (l.map (fun x => |x|)).sum := by
  induction l generalizing a with
  | nil => simp
  | cons x xs ih => simp [ih, add_assoc]

lemma nodUpdate_eq_spec (hist : List ℚ) (roll : ℚ) :
    nodUpdate hist roll = nodSpecModel hist roll := by
  simp only [nodUpdate, nodSpecModel, List.drop_one, List.dropLast_eq_take, NOD_minDiff,
    foldl_add_abs, zero_add]

lemma nodUpdate_short (hist : List ℚ) (roll : ℚ) (h : hist.length < 9) :
    nodUpdate hist roll = (hist ++ [roll], false) := by
  have h1 : ¬ 10 < (hist ++ [roll]).length := by simp; omega
  have h2 : (hist ++ [roll]).length < 10 := by simp; omega
  simp only [nodUpdate, if_neg h1, if_pos h2]

lemma nodUpdate_nine (hist : List ℚ) (roll : ℚ) (h : hist.length = 9) :
    nodUpdate hist roll =
      (hist ++ [roll],
       decide (3 / 2 ≤ abs ((hist.map (fun x => |x|)).sum / 9 - abs roll))) := by
  have h1 : ¬ 10 < (hist ++ [roll]).length := by simp [h]
  have h2 : ¬ (hist ++ [roll]).length < 10 := by simp [h]
  have hlen : (hist ++ [roll]).length - 1 = 9 := by simp [h]
  have htake : (hist ++ [roll]).take ((hist ++ [roll]).length - 1) = hist := by
    rw [hlen, ← h, List.take_left]
  simp only [nodUpdate, if_neg h1, if_neg h2, htake, foldl_add_abs, zero_add, h,
    NOD_minDiff]
  norm_num

lemma nodFeed_replicate_aux (v : ℚ) (n : Nat) :
    ∀ m : Nat, m + n ≤ 9 →
      nodFeed (List.replicate m v) (List.replicate n v) = (List.replicate (m + n) v, false) := by
  induction n with
  | zero => intro m _; simp [nodFeed]
  | succ k ih =>
    intro m hm
    rw [List.replicate_succ]
    have hshort : nodUpdate (List.replicate m v) v = (List.replicate m v ++ [v], false) :=
      nodUpdate_short _ _ (by simp; omega)
    have hbuf : List.replicate m v ++ [v] = List.replicate (m + 1) v :=
      (List.replicate_succ' m v).symm
    have step : nodFeed (List.replicate m v) (v :: List.replicate k v) =
        nodFeed (List.replicate (m + 1) v) (List.replicate k v) := by
      simp only [nodFeed, List.foldl_cons, hshort, hbuf, Bool.false_or]
    rw [step, ih (m + 1) (by omega)]
    congr 1
    congr 1
    omega

lemma nodUpdate_replicate_nine (v : ℚ) :
    nodUpdate (List.replicate 9 v) v = (List.replicate 9 v ++ [v], false) := by
  rw [nodUpdate_nine _ _ (by simp)]
  have hsum : ((List.replicate 9 v).map (fun x => |x|)).sum = 9 * |v| := by
    simp [List.map_replicate, List.sum_replicate, nsmul_eq_mul]
    ring
  rw [hsum]
  have hdiv : (9 : ℚ) * |v| / 9 - |v| = 0 := by ring
  rw [hdiv, abs_zero]
  norm_num

lemma nodFeed_ten_identical (v : ℚ) :
    nodFeed [] (List.replicate 10 v) = (List.replicate 10 v, false) := by
  have h10 : List.replicate 10 v = List.replicate 9 v ++ [v] := List.replicate_succ' 9 v
  have h9 : nodFeed [] (List.replicate 9 v) = (List.replicate 9 v, false) := by
    have := nodFeed_replicate_aux v 9 0 (by omega)
    simpa using this
  rw [h10]
  show (List.replicate 9 v ++ [v]).foldl _ ([], false) = _
  rw [List.foldl_append]
  have h9' : (List.replicate 9 v).foldl
      (fun acc r =>
        let s := nodUpdate acc.1 r
        (s.1, acc.2 || s.2)) (([] : List ℚ), false) = (List.replicate 9 v, false) := h9
  rw [h9']
  simp only [List.foldl_cons, List.foldl_nil, nodUpdate_replicate_nine, Bool.false_or]

/-- Claim C3: the NOD evaluator agrees with the spec's reference
definition (append; FIFO drop-oldest at capacity 10; not satisfied below
10 entries; at 10 entries, satisfied iff the mean of the absolute values
of the 9 entries preceding the newly appended one differs from the
current |rollAngle| by at least 1.5). Consequently 10 identical samples
never satisfy NOD, while 9 samples of 0 followed by one sample of 10 do. -/
theorem nod_evaluator_matches_spec :
    (∀ (hist : List ℚ) (roll : ℚ), nodUpdate hist roll = nodSpecModel hist roll) ∧
    (∀ (hist : List ℚ) (roll : ℚ), hist.length < 9 → (nodUpdate hist roll).2 = false) ∧
    (∀ (hist : List ℚ) (roll : ℚ), hist.length = 9 →
      ((nodUpdate hist roll).2 = true ↔
        3 / 2 ≤ abs ((hist.map (fun x => |x|)).sum / 9 - abs roll))) ∧
    (∀ (hist : List ℚ) (roll : ℚ), hist.length = 10 →
      (nodUpdate hist roll).1 = hist.tail ++ [roll] ∧ (nodUpdate hist roll).1.length = 10) ∧
    (∀ v : ℚ, (nodFeed [] (List.replicate 10 v)).2 = false) ∧
    (nodFeed [] (List.replicate 9 0 ++ [10])).2 = true := by
  refine ⟨nodUpdate_eq_spec, ?_, ?_, ?_, ?_, ?_⟩
  · intro hist roll h
    rw [nodUpdate_short hist roll h]
  · intro hist roll h
    rw [nodUpdate_nine hist roll h]
    simp [decide_eq_true_iff]
  · intro hist roll h
    cases hist with
    | nil => simp at h
    | cons x xs =>
      have hx : xs.length = 9 := by simpa using h
      have h1 : 10 < ((x :: xs) ++ [roll]).length := by simp [hx]
      have htail : ((x :: xs) ++ [roll]).tail = xs ++ [roll] := rfl
      have h2 : ¬ (xs ++ [roll]).length < 10 := by simp [hx]
      constructor
      · simp only [nodUpdate, if_pos h1, htail, if_neg h2, List.tail_cons]
      · simp only [nodUpdate, if_pos h1, htail, if_neg h2]
        simp [hx]
  · intro v
    rw [nodFeed_ten_identical]
  · simp [nodFeed, nodUpdate, List.replicate, NOD_minDiff]
    norm_num

/-- Claim C3 witness: the theorem's insufficient-data part applied to the
concrete three-entry buffer `[1, 2, 3]` with current angle 5. -/
theorem nod_evaluator_matches_spec_witness :
    (nodUpdate [1, 2, 3] 5).2 = false :=
  nod_evaluator_matches_spec.2.1 [1, 2, 3] 5 (by norm_num)

/-- Claim C10 witness: the theorem applied to `initialState` (index 0,
lookup defined) and to the last-index state `afterNexts 4`. -/
theorem index_always_in_bounds_witness :
    (initialState.currentDetectionIndex < initialState.detectionsList.length ∧
      (initialState.detectionsList.get? initialState.currentDetectionIndex).isSome = true) ∧
    ((detectionReducer (afterNexts 4) .NEXT_DETECTION).currentDetectionIndex =
        (afterNexts 4).currentDetectionIndex ∧
      (detectionReducer (afterNexts 4) .NEXT_DETECTION).processComplete = true) :=
  ⟨index_always_in_bounds.1 initialState Reachable.init,
   index_always_in_bounds.2 (afterNexts 4) (by rw [afterNexts_four]; rfl)⟩

lemma handle_detected_true (ww : ℚ) (s : SessionState) (ra : List ℚ)
    (face : FaceMeasurement) (hs : s.faceDetected = true)
    (hc : contains (PREVIEW_RECT ww) (faceRectSmaller face.bounds) = true) :
    handleFaceDetection ww s ra [face] =
      match s.detectionsList.get? s.currentDetectionIndex with
      | some .BLINK =>
        (if face.leftEyeOpenProbability ≤ BLINK_minProbability ∧
            face.rightEyeOpenProbability ≤ BLINK_minProbability then
          [.NEXT_DETECTION] else [], ra)
      | some .NOD =>
        (if (nodUpdate ra face.rollAngle).2 then [.NEXT_DETECTION] else [],
         (nodUpdate ra face.rollAngle).1)
      | some .TURN_HEAD_LEFT =>
        (if face.yawAngle ≤ TURN_HEAD_LEFT_maxAngle then [.NEXT_DETECTION] else [], ra)
      | some .TURN_HEAD_RIGHT =>
        (if TURN_HEAD_RIGHT_minAngle ≤ face.yawAngle then [.NEXT_DETECTION] else [], ra)
      | some .SMILE =>
        (if SMILE_minProbability ≤ face.smilingProbability then [.NEXT_DETECTION] else [], ra)
      | none => ([], ra) := by
  rw [List.get?_eq_getElem?] at *
  rcases hget : s.detectionsList[s.currentDetectionIndex]? with _ | d
  · simp [handleFaceDetection, hc, hs, hget]
  · cases d <;> simp [handleFaceDetection, hc, hs, hget] <;> split <;> rfl

/-- Claim C6: on a qualifying frame of an already-acquired session
(`faceDetected = yes`, containment passes), each stateless evaluator
advances iff its threshold comparison holds: BLINK iff both eye-open
probabilities are ≤ 0.3, TURN_HEAD_LEFT iff yawAngle ≤ −15,
TURN_HEAD_RIGHT iff yawAngle ≥ 15, SMILE iff smilingProbability ≥ 0.7;
and concretely a measurement with yawAngle = −20 satisfies
TURN_HEAD_LEFT but not TURN_HEAD_RIGHT. -/
theorem stateless_evaluators_thresholds :
    (∀ (ww : ℚ) (s : SessionState) (ra : List ℚ) (face : FaceMeasurement),
      s.faceDetected = true →
      contains (PREVIEW_RECT ww) (faceRectSmaller face.bounds) = true →
      s.detectionsList.get? s.currentDetectionIndex = some .BLINK →
      (Event.NEXT_DETECTION ∈ (handleFaceDetection ww s ra [face]).1 ↔
        (face.leftEyeOpenProbability ≤ 3 / 10 ∧ face.rightEyeOpenProbability ≤ 3 / 10))) ∧
    (∀ (ww : ℚ) (s : SessionState) (ra : List ℚ) (face : FaceMeasurement),
      s.faceDetected = true →
      contains (PREVIEW_RECT ww) (faceRectSmaller face.bounds) = true →
      s.detectionsList.get? s.currentDetectionIndex = some .TURN_HEAD_LEFT →
      (Event.NEXT_DETECTION ∈ (handleFaceDetection ww s ra [face]).1 ↔
        face.yawAngle ≤ -15)) ∧
    (∀ (ww : ℚ) (s : SessionState) (ra : List ℚ) (face : FaceMeasurement),
      s.faceDetected = true →
      contains (PREVIEW_RECT ww) (faceRectSmaller face.bounds) = true →
      s.detectionsList.get? s.currentDetectionIndex = some .TURN_HEAD_RIGHT →
      (Event.NEXT_DETECTION ∈ (handleFaceDetection ww s ra [face]).1 ↔
        15 ≤ face.yawAngle)) ∧
    (∀ (ww : ℚ) (s : SessionState) (ra : List ℚ) (face : FaceMeasurement),
      s.faceDetected = true →
      contains (PREVIEW_RECT ww) (faceRectSmaller face.bounds) = true →
      s.detectionsList.get? s.currentDetectionIndex = some .SMILE →
      (Event.NEXT_DETECTION ∈ (handleFaceDetection ww s ra [face]).1 ↔
        7 / 10 ≤ face.smilingProbability)) ∧
    (handleFaceDetection 325
      { faceDetected := true, faceTooBig := false, detectionsList := detectionsList,
        currentDetectionIndex := 1, progressFill := 0, processComplete := false }
      []
      [{ bounds := { minX := 100, minY := 100, width := 100, height := 100 },
         leftEyeOpenProbability := 1, rightEyeOpenProbability := 1,
         smilingProbability := 0, yawAngle := -20, rollAngle := 0 }]).1 =
      [Event.NEXT_DETECTION] ∧
    (handleFaceDetection 325
      { faceDetected := true, faceTooBig := false, detectionsList := detectionsList,
        currentDetectionIndex := 2, progressFill := 0, processComplete := false }
      []
      [{ bounds := { minX := 100, minY := 100, width := 100, height := 100 },
         leftEyeOpenProbability := 1, rightEyeOpenProbability := 1,
         smilingProbability := 0, yawAngle := -20, rollAngle := 0 }]).1 = [] := by
  refine ⟨?_, ?_, ?_, ?_, ?_, ?_⟩
  · intro ww s ra face hs hc hget
    rw [handle_detected_true ww s ra face hs hc, hget]
    by_cases hcond : face.leftEyeOpenProbability ≤ 3 / 10 ∧ face.rightEyeOpenProbability ≤ 3 / 10
    · simp [BLINK_minProbability, hcond]
    · simp [BLINK_minProbability, hcond]
  · intro ww s ra face hs hc hget
    rw [handle_detected_true ww s ra face hs hc, hget]
    by_cases hcond : face.yawAngle ≤ -15
    · simp [TURN_HEAD_LEFT_maxAngle, hcond]
    · simp [TURN_HEAD_LEFT_maxAngle, hcond]
  · intro ww s ra face hs hc hget
    rw [handle_detected_true ww s ra face hs hc, hget]
    by_cases hcond : 15 ≤ face.yawAngle
    · simp [TURN_HEAD_RIGHT_minAngle, hcond]
    · simp [TURN_HEAD_RIGHT_minAngle, hcond]
  · intro ww s ra face hs hc hget
    rw [handle_detected_true ww s ra face hs hc, hget]
    by_cases hcond : 7 / 10 ≤ face.smilingProbability
    · simp [SMILE_minProbability, hcond]
    · simp [SMILE_minProbability, hcond]
  · simp [handleFaceDetection, contains, PREVIEW_RECT, PREVIEW_SIZE, faceRectSmaller,
      detectionsList, TURN_HEAD_LEFT_maxAngle]
    norm_num
  · simp [handleFaceDetection, contains, PREVIEW_RECT, PREVIEW_SIZE, faceRectSmaller,
      detectionsList, TURN_HEAD_RIGHT_minAngle]
    norm_num

/-- Claim C6 witness: the TURN_HEAD_LEFT part of the theorem applied to a
concrete qualifying frame with yawAngle = −20. -/
theorem stateless_evaluators_thresholds_witness :
    Event.NEXT_DETECTION ∈
      (handleFaceDetection 325
        { faceDetected := true, faceTooBig := false, detectionsList := detectionsList,
          currentDetectionIndex := 1, progressFill := 0, processComplete := false }
        []
        [{ bounds := { minX := 100, minY := 100, width := 100, height := 100 },
           leftEyeOpenProbability := 1, rightEyeOpenProbability := 1,
           smilingProbability := 0, yawAngle := -20, rollAngle := 0 }]).1 ↔
      (-20 : ℚ) ≤ -15 :=
  stateless_evaluators_thresholds.2.1 325 _ [] _ rfl
    (by simp [contains, PREVIEW_RECT, PREVIEW_SIZE, faceRectSmaller] <;> norm_num)
    (by simp [detectionsList])

/-- Claim C7: the per-frame qualification builds the tolerance-adjusted
rectangle by subtracting the full 50-unit edge inset from the face
rectangle's width and height with `minX`/`minY` unchanged, and when the
containment test of that rectangle inside the preview rectangle fails,
the frame emits exactly `FACE_DETECTED(no)` and performs no further
processing (no size check, no challenge evaluation, `rollAngles`
untouched). -/
theorem containment_gate :
    (∀ r : Rect,
      faceRectSmaller r =
        { minX := r.minX, minY := r.minY, width := r.width - 50, height := r.height - 50 }) ∧
    (∀ (ww : ℚ) (s : SessionState) (ra : List ℚ) (face : FaceMeasurement),
      contains (PREVIEW_RECT ww) (faceRectSmaller face.bounds) = false →
      handleFaceDetection ww s ra [face] = ([.FACE_DETECTED false], ra)) := by
  constructor
  · intro r
    rfl
  · intro ww s ra face h
    simp [handleFaceDetection, h]

/-- Claim C7 witness: the theorem applied to a concrete frame whose face
sits left of a 325-wide preview, failing containment. -/
theorem containment_gate_witness :
    handleFaceDetection 325 initialState [1, 2]
      [{ bounds := { minX := -100, minY := 60, width := 60, height := 60 },
         leftEyeOpenProbability := 0, rightEyeOpenProbability := 0,
         smilingProbability := 0, yawAngle := 0, rollAngle := 0 }] =
      ([.FACE_DETECTED false], [1, 2]) :=
  containment_gate.2 325 initialState [1, 2] _
    (by simp [contains, PREVIEW_RECT, PREVIEW_SIZE, faceRectSmaller] <;> norm_num)

/-- Claim C8: the oversize test runs only while the session has
`faceDetected = "no"`. On a qualifying frame in that situation, if the
unadjusted face width and height are both ≥ 235 (= PREVIEW_SIZE − 90) the
frame emits exactly `FACE_TOO_BIG(yes)` and stops; otherwise, if
`faceTooBig` was `"yes"`, `FACE_TOO_BIG(no)` is emitted. Once
`faceDetected = "yes"`, no frame emits `FACE_TOO_BIG(yes)`. -/
theorem oversize_policy :
    (PREVIEW_SIZE - 90 = 235) ∧
    (∀ (ww : ℚ) (s : SessionState) (ra : List ℚ) (face : FaceMeasurement),
      s.faceDetected = false →
      contains (PREVIEW_RECT ww) (faceRectSmaller face.bounds) = true →
      235 ≤ face.bounds.width → 235 ≤ face.bounds.height →
      handleFaceDetection ww s ra [face] = ([.FACE_TOO_BIG true], ra)) ∧
    (∀ (ww : ℚ) (s : SessionState) (ra : List ℚ) (face : FaceMeasurement),
      s.faceDetected = false → s.faceTooBig = true →
      contains (PREVIEW_RECT ww) (faceRectSmaller face.bounds) = true →
      ¬ (235 ≤ face.bounds.width ∧ 235 ≤ face.bounds.height) →
      Event.FACE_TOO_BIG false ∈ (handleFaceDetection ww s ra [face]).1) ∧
    (∀ (ww : ℚ) (s : SessionState) (ra : List ℚ) (faces : List FaceMeasurement),
      s.faceDetected = true →
      Event.FACE_TOO_BIG true ∉ (handleFaceDetection ww s ra faces).1) := by
  refine ⟨by norm_num [PREVIEW_SIZE], ?_, ?_, ?_⟩
  · intro ww s ra face hs hc hw hh
    have hw' : PREVIEW_SIZE - 90 ≤ face.bounds.width := by
      rw [show PREVIEW_SIZE - 90 = (235 : ℚ) from by norm_num [PREVIEW_SIZE]]
      exact hw
    have hh' : PREVIEW_SIZE - 90 ≤ face.bounds.height := by
      rw [show PREVIEW_SIZE - 90 = (235 : ℚ) from by norm_num [PREVIEW_SIZE]]
      exact hh
    simp [handleFaceDetection, hc, hs, hw', hh']
  · intro ww s ra face hs hb hc hno
    have hps : PREVIEW_SIZE = 325 := rfl
    have hno2 : ¬ (PREVIEW_SIZE ≤ face.bounds.width + 90 ∧
        PREVIEW_SIZE ≤ face.bounds.height + 90) := by
      rw [hps]
      intro hcon
      refine hno ⟨by linarith [hcon.1], by linarith [hcon.2]⟩
    rcases hget : s.detectionsList[s.currentDetectionIndex]? with _ | d
    · simp [handleFaceDetection, hc, hs, hb, hget]
      rw [if_neg hno2]
      simp
    · cases d <;> simp [handleFaceDetection, hc, hs, hb, hget] <;> rw [if_neg hno2] <;>
        (try (split_ifs <;> simp))
  · intro ww s ra faces hs
    rcases faces with _ | ⟨f, _ | ⟨g, rest⟩⟩
    · simp [handleFaceDetection]
    · by_cases hc : contains (PREVIEW_RECT ww) (faceRectSmaller f.bounds) = true
      · rcases hget : s.detectionsList[s.currentDetectionIndex]? with _ | d
        · simp [handleFaceDetection, hc, hs, hget]
        · cases d <;> simp [handleFaceDetection, hc, hs, hget] <;>
            (try (split_ifs <;> simp))
      · have hc' : contains (PREVIEW_RECT ww) (faceRectSmaller f.bounds) = false := by
          simpa using hc
        simp [handleFaceDetection, hc']
    · simp [handleFaceDetection]

/-- Claim C8 witness: the oversize part of the theorem applied to a
concrete centered 240×240 face in a 325-wide preview, from the initial
state. -/
theorem oversize_policy_witness :
    handleFaceDetection 325 initialState []
      [{ bounds := { minX := 60, minY := 60, width := 240, height := 240 },
         leftEyeOpenProbability := 0, rightEyeOpenProbability := 0,
         smilingProbability := 0, yawAngle := 0, rollAngle := 0 }] =
      ([.FACE_TOO_BIG true], []) :=
  oversize_policy.2.1 325 initialState [] _ rfl
    (by simp [contains, PREVIEW_RECT, PREVIEW_SIZE, faceRectSmaller] <;> norm_num)
    (by norm_num) (by norm_num)

/-- Claim C9: whenever a frame emits `FACE_DETECTED(no)` — the face-count
reset path or the containment-failure reset path — the `rollAngles`
history buffer is returned unchanged: no reset path clears it, so entries
recorded before the reset persist into the next acquisition attempt. -/
theorem reset_keeps_nod_history (ww : ℚ) (s : SessionState) (ra : List ℚ)
    (faces : List FaceMeasurement)
    (h : Event.FACE_DETECTED false ∈ (handleFaceDetection ww s ra faces).1) :
    (handleFaceDetection ww s ra faces).2 = ra := by
  rcases faces with _ | ⟨f, _ | ⟨g, rest⟩⟩
  · simp [handleFaceDetection]
  · by_cases hc : contains (PREVIEW_RECT ww) (faceRectSmaller f.bounds) = true
    · exfalso
      revert h
      rcases hget : s.detectionsList[s.currentDetectionIndex]? with _ | d
      · simp [handleFaceDetection, hc, hget]
        (try (split_ifs <;> simp))
      · cases d <;> simp [handleFaceDetection, hc, hget] <;>
          (try (split_ifs <;> simp))
    · have hc' : contains (PREVIEW_RECT ww) (faceRectSmaller f.bounds) = false := by
        simpa using hc
      simp [handleFaceDetection, hc']
  · simp [handleFaceDetection]

/-- Claim C9 witness: the theorem applied to a zero-face frame from the
initial state with a non-empty history buffer. -/
theorem reset_keeps_nod_history_witness :
    (handleFaceDetection 325 initialState [1, 2] []).2 = [1, 2] :=
  reset_keeps_nod_history 325 initialState [1, 2] []
    (by simp [handleFaceDetection])

end LiveFaceAuth
